import Mathlib

/-!
Shallow embedding of `src/nix.rs` from the lorri repository: the `CallOpts`
builder, its argument rendering (`command_arguments`), and the process
execution pipeline (`execute`, `value`, `paths`, `path`).

Machine-level effects (spawning, pipes, thread scheduling) are exposed as
explicit parameters describing the outcome of each effectful step (spawn
result, wait result, captured stderr lines, stdout-decode result); the
control flow acting on those outcomes is translated directly from the Rust
source.  `HashMap` iteration order is unspecified in Rust, so functions that
iterate the `argstrs` map take the iteration sequence as a parameter,
constrained in theorems to be a permutation of the map's entries.
-/

namespace Lorri

/-- Which input to give nix (`enum Input` in nix.rs): a nix expression
string or a nix file path.  Paths are modelled as strings. -/
inductive Input where
  | Expression (expr : String)
  | File (path : String)
deriving DecidableEq, Repr

/-- A store path (`struct StorePath(PathBuf)` in nix.rs), an opaque wrapper
around a filesystem path. -/
structure StorePath where
  path : String
deriving DecidableEq, Repr

/-- A temporary directory, modelling `tempfile::TempDir` (external crate):
only its path is relevant to the embedded control flow. -/
structure TempDir where
  path : String
deriving DecidableEq, Repr

/-- Wrapper `GcRootTempDir(tempfile::TempDir)` from nix.rs: keeps a temporary
GC root directory alive. -/
structure GcRootTempDir where
  dir : TempDir
deriving DecidableEq, Repr

/-- The kind of an OS-level I/O error; the source only discriminates
`std::io::ErrorKind::NotFound` from everything else. -/
inductive IoErrorKind where
  | notFound
  | other
deriving DecidableEq, Repr

/-- An OS-level I/O error (`std::io::Error`): its kind plus a rendered
message. -/
structure IoError where
  kind : IoErrorKind
  msg : String
deriving DecidableEq, Repr

/-- A process exit status (`std::process::ExitStatus`), modelled by its
exit code. -/
structure ExitStatus where
  code : Nat
deriving DecidableEq, Repr

/-- Rust `ExitStatus::success()`: code zero denotes success. -/
def ExitStatus.success (s : ExitStatus) : Bool :=
  s.code == 0

/-- A configured command (`std::process::Command`): program name plus
argument vector. -/
structure Cmd where
  program : String
  args : List String
deriving DecidableEq, Repr

/-- Modelled from the spec: `BuildError` lives in `crate::error`, which is
not part of the provided sources.  Spec section 3 ("Build Failure") gives a
tagged variant capturing process-not-found (constructed by
`BuildError::spawn`, carrying the command), generic I/O failure
(`BuildError::io`, carrying a rendered message), non-zero exit
(`BuildError::exit`, carrying the command, exit status and captured
standard-error lines), and output-shape violation (`BuildError::output`,
carrying a message). -/
inductive BuildError where
  | spawn (cmd : Cmd) (msg : String)
  | io (msg : String)
  | exit (cmd : Cmd) (status : ExitStatus) (logs : List String)
  | output (msg : String)
deriving DecidableEq, Repr

/-- The struct `CallOpts` from nix.rs: the input, an optional attribute, and the
`argstrs` map.  The Rust `HashMap<String, String>` is modelled as a
key-unique association list recording insertion order; iteration order is
handled separately (see `command_arguments`). -/
structure CallOpts where
  input : Input
  attr : Option String  -- the `attribute` field; `attribute` is a Lean keyword
  argstrs : List (String × String)
deriving DecidableEq, Repr

/-- Semantics of `HashMap::insert` on the association-list model: if the key is
present its value is overwritten in place, otherwise the entry is appended. -/
def mapInsert (m : List (String × String)) (k v : String) : List (String × String) :=
  match m with
  | [] => [(k, v)]
  | (k', v') :: rest =>
      if k' = k then (k', v) :: rest else (k', v') :: mapInsert rest k v

/-- Constructor `CallOpts::expression`: create a `CallOpts` with a Nix expression input. -/
def CallOpts.expression (expr : String) : CallOpts :=
  { input := Input.Expression expr, attr := none, argstrs := [] }

/-- Constructor `CallOpts::file`: create a `CallOpts` with a Nix file input. -/
def CallOpts.file (nix_file : String) : CallOpts :=
  { input := Input.File nix_file, attr := none, argstrs := [] }

/-- Builder method `CallOpts::attribute`: set the attribute, overwriting any previous one
(`self.attribute = Some(attr.to_string())`). -/
def CallOpts.setAttr (c : CallOpts) (a : String) : CallOpts :=
  { c with attr := some a }

/-- Builder method `CallOpts::argstr`: insert a named string argument into the map
(`self.argstrs.insert(name.to_string(), value.to_string())`). -/
def CallOpts.argstr (c : CallOpts) (name value : String) : CallOpts :=
  { c with argstrs := mapInsert c.argstrs name value }

/-- Translation of `CallOpts::command_arguments`, statement by statement from
nix.rs: start from an empty vector, push `-A attr` when an attribute is
set, push an `--argstr name value` triple for each entry the map's iterator
yields, and finally push the input clause.  Because Rust's `HashMap`
iteration order is unspecified, the sequence of entries yielded by
`self.argstrs.iter()` is a parameter `iter`; theorems constrain it to be a
permutation of `c.argstrs`. -/
def command_arguments (c : CallOpts) (iter : List (String × String)) : List String :=
  let ret : List String := []
  let ret := match c.attr with
    | some attr => ret ++ ["-A", attr]
    | none => ret
  let ret := iter.foldl (fun acc nv => acc ++ ["--argstr", nv.1, nv.2]) ret
  match c.input with
  | Input.Expression exp => ret ++ ["--expr", exp]
  | Input.File fp => ret ++ ["--", fp]

/-- The declarative argument shape stated by the spec: optional `[-A, a]`
first, then the flattened `--argstr` triples in the iteration order, then
the input clause (`[--expr, e]` or `[--, p]`) last. -/
def command_arguments_shape (c : CallOpts) (iter : List (String × String)) : List String :=
  (match c.attr with
    | some a => ["-A", a]
    | none => []) ++
  iter.flatMap (fun nv => ["--argstr", nv.1, nv.2]) ++
  (match c.input with
    | Input.Expression e => ["--expr", e]
    | Input.File p => ["--", p])

/-- The observable outcome of one run of `CallOpts::execute`: the returned
`Result`, plus, for each of the two drain threads spawned after a
successful process spawn, whether control reached the corresponding
`join()` statement before the function returned. -/
structure ExecOutcome (T : Type) where
  result : Except BuildError T
  joinedStderr : Bool
  joinedStdout : Bool
deriving Repr

/-- Translation of `CallOpts::execute` from nix.rs.  Effectful steps are
parameters: `spawnErr` is the failure of `cmd.spawn()` when the child does
not start (`none` when it does), `waitResult` the outcome of
`nix_proc.wait()`, `stderrLines` the ordered lines the stderr thread reads
from the child's standard error, and `stdoutVal` the value `stdout_fn`
computes from the child's standard output.  Control flow mirrors the
source:
 * step 0: a spawn failure of kind `NotFound` returns `BuildError::spawn`,
   any other spawn failure returns `BuildError::io` (the `map_err` + `?`);
 * steps 1-2: the two drain threads are spawned;
 * step 3: `nix_proc.wait()?` — an error here returns `BuildError::io`
   (via `From<io::Error>`) at once, before the joins of steps 4-5 run, so
   both join flags are false on that path;
 * steps 4-5: both threads are joined;
 * finally, a non-success status returns `BuildError::exit` carrying the
   command, the status and the collected stderr lines, discarding
   `stdoutVal`; a success status returns `Ok(stdoutVal)`. -/
def execute (T : Type) (cmd : Cmd) (spawnErr : Option IoError)
    (waitResult : Except IoError ExitStatus) (stderrLines : List String)
    (stdoutVal : T) : ExecOutcome T :=
  match spawnErr with
  | some e =>
      { result := Except.error (match e.kind with
          | IoErrorKind.notFound => BuildError.spawn cmd e.msg
          | IoErrorKind.other => BuildError.io e.msg),
        joinedStderr := false, joinedStdout := false }
  | none =>
      match waitResult with
      | Except.error e =>
          { result := Except.error (BuildError.io e.msg),
            joinedStderr := false, joinedStdout := false }
      | Except.ok nix_proc_result =>
          { result :=
              if !nix_proc_result.success then
                Except.error (BuildError.exit cmd nix_proc_result stderrLines)
              else
                Except.ok stdoutVal,
            joinedStderr := true, joinedStdout := true }

/-- Translation of `CallOpts::value` from nix.rs: build the
`nix-instantiate --eval --json --strict <command_arguments>` command, run
`execute` with the serde-json decode strategy — whose outcome on this run
is the parameter `decodeResult` (error case carries the rendered serde
message) — propagate any `execute` failure with `?`, and map a decode
error to `BuildError::io`. -/
def value (T : Type) (c : CallOpts) (iter : List (String × String))
    (spawnErr : Option IoError) (waitResult : Except IoError ExitStatus)
    (stderrLines : List String) (decodeResult : Except String T) :
    Except BuildError T :=
  let cmd : Cmd := { program := "nix-instantiate",
                     args := ["--eval", "--json", "--strict"] ++ command_arguments c iter }
  match (execute (Except String T) cmd spawnErr waitResult stderrLines decodeResult).result with
  | Except.error e => Except.error e
  | Except.ok r =>
      match r with
      | Except.error serdeMsg => Except.error (BuildError.io serdeMsg)
      | Except.ok v => Except.ok v

/-- Nonempty vector from the external `vec1` crate, modelled per its
documented semantics: a first element plus the remaining elements. -/
structure Vec1 (α : Type) where
  head : α
  tail : List α
deriving DecidableEq, Repr

/-- Conversion `Vec1::into_vec`: the underlying list of elements. -/
def Vec1.toList {α : Type} (v : Vec1 α) : List α :=
  v.head :: v.tail

/-- Conversion `Vec1::try_from_vec`: succeeds exactly on a nonempty vector. -/
def Vec1.tryFromVec {α : Type} : List α → Option (Vec1 α)
  | [] => none
  | x :: xs => some ⟨x, xs⟩

/-- Rust `Vec::pop`: remove and return the last element, together with the
remaining vector. -/
def vecPop {α : Type} (l : List α) : Option α × List α :=
  match l.getLast? with
  | none => (none, l)
  | some x => (some x, l.dropLast)

/-- Translation of `CallOpts::paths` from nix.rs: create the temporary GC
root directory (`tempdirResult` is the outcome of `TempDir::new()`; its
failure becomes `BuildError::io` through the `?`), build the
`nix-build --out-link <dir>/result <command_arguments>` command, run
`execute` with the line-splitting decode strategy — whose outcome on this
run is `linesResult`, an I/O-error message or the ordered `StorePath` list
read from standard output — apply the double `??` (first propagating any
`execute` failure, then converting a line-reading I/O error to
`BuildError::io`), and finally require a nonempty list via
`Vec1::try_from_vec`, returning `BuildError::output` on an empty one. -/
def paths (c : CallOpts) (iter : List (String × String))
    (tempdirResult : Except IoError TempDir) (spawnErr : Option IoError)
    (waitResult : Except IoError ExitStatus) (stderrLines : List String)
    (linesResult : Except String (List StorePath)) :
    Except BuildError (Vec1 StorePath × GcRootTempDir) :=
  match tempdirResult with
  | Except.error e => Except.error (BuildError.io e.msg)
  | Except.ok gc_root_dir =>
    let cmd : Cmd := { program := "nix-build",
                       args := ["--out-link", gc_root_dir.path ++ "/result"]
                         ++ command_arguments c iter }
    match (execute (Except String (List StorePath)) cmd spawnErr waitResult
        stderrLines linesResult).result with
    | Except.error e => Except.error e
    | Except.ok r =>
      match r with
      | Except.error ioMsg => Except.error (BuildError.io ioMsg)
      | Except.ok pathsList =>
        match Vec1.tryFromVec pathsList with
        | some vec1 => Except.ok (vec1, ⟨gc_root_dir⟩)
        | none => Except.error
            (BuildError.output "expected exactly one Nix output, got zero")

/-- Translation of `CallOpts::path` from nix.rs: call `paths` (the `?`
propagates its failures), convert the `Vec1` into a vector, pop twice from
its end, and match on the two popped elements: none at all is the
"got zero" output failure, exactly one is success with that element and
the guard, two is the "got more" output failure. -/
def path (c : CallOpts) (iter : List (String × String))
    (tempdirResult : Except IoError TempDir) (spawnErr : Option IoError)
    (waitResult : Except IoError ExitStatus) (stderrLines : List String)
    (linesResult : Except String (List StorePath)) :
    Except BuildError (StorePath × GcRootTempDir) :=
  match paths c iter tempdirResult spawnErr waitResult stderrLines linesResult with
  | Except.error e => Except.error e
  | Except.ok (pathsv1, gc_root) =>
    let paths0 := pathsv1.toList
    let pop1 := vecPop paths0
    let pop2 := vecPop pop1.2
    match pop1.1, pop2.1 with
    | none, _ => Except.error
        (BuildError.output "expected exactly one build output, got zero")
    | some p, none => Except.ok (p, gc_root)
    | some _, some _ => Except.error
        (BuildError.output "expected exactly one build output, got more")

/-! Helper lemmas shared by the claim theorems. -/

/-- Pushing an `--argstr` triple per entry through the fold equals appending
the flattened triples to the accumulator. -/
theorem foldl_argstr_eq (l : List (String × String)) (init : List String) :
    l.foldl (fun acc nv => acc ++ ["--argstr", nv.1, nv.2]) init
      = init ++ l.flatMap (fun nv => ["--argstr", nv.1, nv.2]) := by
  induction l generalizing init with
  | nil => simp
  | cons hd tl ih => simp [ih]

/-- The imperative rendering agrees with the declarative shape for every
configuration and every iteration sequence. -/
theorem command_arguments_eq_shape (c : CallOpts) (iter : List (String × String)) :
    command_arguments c iter = command_arguments_shape c iter := by
  unfold command_arguments command_arguments_shape
  cases c.attr <;> cases c.input <;> simp [foldl_argstr_eq]

/-- Re-inserting a key overwrites: the second insert wins and the first
insert leaves no trace in the map. -/
theorem mapInsert_mapInsert (m : List (String × String)) (k v₁ v₂ : String) :
    mapInsert (mapInsert m k v₁) k v₂ = mapInsert m k v₂ := by
  induction m with
  | nil => simp [mapInsert]
  | cons hd tl ih =>
      obtain ⟨k', v'⟩ := hd
      by_cases h : k' = k <;> simp [mapInsert, h, ih]

/-- Popping from a nonempty vector yields its last element and the vector
without it. -/
theorem vecPop_cons {α : Type} (x : α) (l : List α) :
    vecPop (x :: l) = (some (l.getLast?.getD x), (x :: l).dropLast) := by
  simp [vecPop, List.getLast?_cons]

/-- The runner never produces an output-shape failure itself: its error
constructors are `spawn`, `io` and `exit` only. -/
theorem execute_no_output_error {T : Type} (cmd : Cmd) (sp : Option IoError)
    (wr : Except IoError ExitStatus) (se : List String) (v : T) (m : String) :
    (execute T cmd sp wr se v).result ≠ Except.error (BuildError.output m) := by
  unfold execute
  rcases sp with _ | e
  · rcases wr with e | s
    · simp
    · by_cases h : s.success <;> simp [h]
  · rcases e with ⟨k, msg⟩
    cases k <;> simp

/-- The only output-shape failure `paths` can return is its own
empty-output message. -/
theorem paths_output_msg (c : CallOpts) (iter : List (String × String))
    (td : Except IoError TempDir) (sp : Option IoError)
    (wr : Except IoError ExitStatus) (se : List String)
    (lr : Except String (List StorePath)) (m : String)
    (h : paths c iter td sp wr se lr = Except.error (BuildError.output m)) :
    m = "expected exactly one Nix output, got zero" := by
  simp only [paths] at h
  split at h
  · simp at h
  · split at h
    · rename_i hex
      simp only [Except.error.injEq] at h
      exact absurd (hex.trans (by rw [h])) (execute_no_output_error _ sp wr se lr m)
    · split at h
      · simp at h
      · split at h
        · simp at h
        · simp only [Except.error.injEq, BuildError.output.injEq] at h
          exact h.symm

/-! Claim theorems. -/

/-- C1: for every Call Configuration and every admissible iteration order of
its argument map (a permutation of the map's entries), `command_arguments`
renders exactly the `[-A, a]` pair if and only if an attribute is set,
followed by one `[--argstr, name, value]` triple per named argument,
followed last by `[--expr, e]` for an `Expression` input or `[--, p]` for a
`File` input, and no other tokens. -/
theorem c1_command_arguments_renders_shape (c : CallOpts)
    (iter : List (String × String)) (_h : iter.Perm c.argstrs) :
    command_arguments c iter = command_arguments_shape c iter :=
  command_arguments_eq_shape c iter

/-- Witness for C1 at the configuration of the repository's
`cmd_arguments_expression` unit test. -/
theorem c1_witness :
    ([("foo", "bar")] : List (String × String)).Perm
        ((((CallOpts.expression "my-cool-expression").setAttr "hello").argstr
          "foo" "bar").argstrs) ∧
    command_arguments
        (((CallOpts.expression "my-cool-expression").setAttr "hello").argstr "foo" "bar")
        [("foo", "bar")]
      = command_arguments_shape
          (((CallOpts.expression "my-cool-expression").setAttr "hello").argstr "foo" "bar")
          [("foo", "bar")] :=
  ⟨by decide, c1_command_arguments_renders_shape _ _ (by decide)⟩

/-- C2: whenever `paths` succeeds the returned sequence is non-empty, and a
successful process exit whose standard output decodes to zero path lines
makes `paths` return an output-shape failure instead of an empty success. -/
theorem c2_paths_nonempty_or_output_failure (c : CallOpts)
    (iter : List (String × String)) (td : Except IoError TempDir)
    (sp : Option IoError) (wr : Except IoError ExitStatus) (se : List String)
    (lr : Except String (List StorePath)) :
    (∀ v g, paths c iter td sp wr se lr = Except.ok (v, g) → v.toList ≠ []) ∧
    (∀ d s, td = Except.ok d → sp = none → wr = Except.ok s → s.success = true →
      lr = Except.ok [] →
      paths c iter td sp wr se lr
        = Except.error (BuildError.output "expected exactly one Nix output, got zero")) := by
  constructor
  · intro v g _
    simp [Vec1.toList]
  · rintro d s rfl rfl rfl hs rfl
    simp [paths, execute, hs, Vec1.tryFromVec]

/-- Witness for C2: a successful exit with zero decoded path lines yields
the output-shape failure. -/
theorem c2_witness :
    paths (CallOpts.expression "e") [] (Except.ok ⟨"/tmp/gc"⟩) none (Except.ok ⟨0⟩) []
        (Except.ok [])
      = Except.error (BuildError.output "expected exactly one Nix output, got zero") :=
  (c2_paths_nonempty_or_output_failure (CallOpts.expression "e") [] (Except.ok ⟨"/tmp/gc"⟩)
      none (Except.ok ⟨0⟩) [] (Except.ok [])).2 ⟨"/tmp/gc"⟩ ⟨0⟩ rfl rfl rfl rfl rfl

/-- C3: `path` propagates every `paths` failure unchanged; on a `paths`
success it returns the single Store Path with the guard when the sequence
has exactly one element, returns the "got more" output-shape failure when
it has more than one, and succeeds exactly when `paths` succeeded with a
one-element sequence (the zero-element case cannot arise from a `Vec1`). -/
theorem c3_path_exactly_one (c : CallOpts) (iter : List (String × String))
    (td : Except IoError TempDir) (sp : Option IoError)
    (wr : Except IoError ExitStatus) (se : List String)
    (lr : Except String (List StorePath)) :
    (∀ e, paths c iter td sp wr se lr = Except.error e →
        path c iter td sp wr se lr = Except.error e) ∧
    (∀ v g, paths c iter td sp wr se lr = Except.ok (v, g) →
        (v.tail = [] → path c iter td sp wr se lr = Except.ok (v.head, g)) ∧
        (v.tail ≠ [] → path c iter td sp wr se lr
            = Except.error (BuildError.output "expected exactly one build output, got more"))) ∧
    ((∃ r, path c iter td sp wr se lr = Except.ok r) ↔
        ∃ v g, paths c iter td sp wr se lr = Except.ok (v, g) ∧ v.tail = []) := by
  have hprop : ∀ e, paths c iter td sp wr se lr = Except.error e →
      path c iter td sp wr se lr = Except.error e := by
    intro e he
    simp [path, he]
  have hok : ∀ v g, paths c iter td sp wr se lr = Except.ok (v, g) →
      (v.tail = [] → path c iter td sp wr se lr = Except.ok (v.head, g)) ∧
      (v.tail ≠ [] → path c iter td sp wr se lr
          = Except.error (BuildError.output "expected exactly one build output, got more")) := by
    intro v g hpa
    obtain ⟨vh, vt⟩ := v
    cases vt with
    | nil =>
        refine ⟨fun _ => ?_, fun hne => absurd rfl hne⟩
        simp [path, hpa, Vec1.toList, vecPop_cons, vecPop]
    | cons t ts =>
        refine ⟨fun h => by simp at h, fun _ => ?_⟩
        simp [path, hpa, Vec1.toList, vecPop_cons, vecPop, List.dropLast_cons₂,
          List.getLast?_cons]
  refine ⟨hprop, hok, ?_, ?_⟩
  · rintro ⟨r, hr⟩
    cases hpa : paths c iter td sp wr se lr with
    | error e => rw [hprop e hpa] at hr; exact absurd hr (by simp)
    | ok p =>
        obtain ⟨v, g⟩ := p
        cases ht : v.tail with
        | nil => exact ⟨v, g, rfl, ht⟩
        | cons t ts =>
            rw [(hok v g hpa).2 (by simp [ht])] at hr
            exact absurd hr (by simp)
  · rintro ⟨v, g, hpa, ht⟩
    exact ⟨(v.head, g), (hok v g hpa).1 ht⟩

/-- Witness for C3: a one-element decoded sequence makes `path` return that
element and the guard. -/
theorem c3_witness :
    path (CallOpts.expression "e") [] (Except.ok ⟨"/tmp/gc"⟩) none (Except.ok ⟨0⟩) []
        (Except.ok [⟨"/nix/store/x"⟩])
      = Except.ok (⟨"/nix/store/x"⟩, ⟨⟨"/tmp/gc"⟩⟩) :=
  ((c3_path_exactly_one (CallOpts.expression "e") [] (Except.ok ⟨"/tmp/gc"⟩) none
      (Except.ok ⟨0⟩) [] (Except.ok [⟨"/nix/store/x"⟩])).2.1
    ⟨⟨"/nix/store/x"⟩, []⟩ ⟨⟨"/tmp/gc"⟩⟩ rfl).1 rfl

/-- C4: when the child exits with a non-success status, `execute` returns a
failure carrying the command, the exit status and the full ordered sequence
of captured standard-error lines, and the entire outcome is independent of
the value the stdout-decode strategy produced (it is discarded, never
returned). -/
theorem c4_exit_failure_carries_diagnostics {T : Type} (cmd : Cmd)
    (wr : Except IoError ExitStatus) (s : ExitStatus) (se : List String) (v v' : T)
    (hw : wr = Except.ok s) (hs : s.success = false) :
    (execute T cmd none wr se v).result = Except.error (BuildError.exit cmd s se) ∧
    execute T cmd none wr se v = execute T cmd none wr se v' := by
  subst hw
  constructor <;> simp [execute, hs]

/-- Witness for C4 at exit code 1 with two stderr lines and two different
stdout values. -/
theorem c4_witness :
    (execute Nat ⟨"nix-build", []⟩ none (Except.ok ⟨1⟩) ["err1", "err2"] 7).result
      = Except.error (BuildError.exit ⟨"nix-build", []⟩ ⟨1⟩ ["err1", "err2"]) ∧
    execute Nat ⟨"nix-build", []⟩ none (Except.ok ⟨1⟩) ["err1", "err2"] 7
      = execute Nat ⟨"nix-build", []⟩ none (Except.ok ⟨1⟩) ["err1", "err2"] 99 :=
  c4_exit_failure_carries_diagnostics ⟨"nix-build", []⟩ _ ⟨1⟩ ["err1", "err2"] 7 99 rfl rfl

/-- C5 counterexample: after a successful spawn, when waiting for the
process fails, `execute` returns with NEITHER drain thread joined — the
`?` on `nix_proc.wait()` returns before the two `join()` statements run —
refuting the claim that both units are joined on every path including the
wait-error path. -/
theorem c5_counterexample :
    (execute Nat ⟨"nix-build", []⟩ none
        (Except.error ⟨IoErrorKind.other, "wait failed"⟩) [] 0).joinedStderr = false ∧
    (execute Nat ⟨"nix-build", []⟩ none
        (Except.error ⟨IoErrorKind.other, "wait failed"⟩) [] 0).joinedStdout = false :=
  ⟨rfl, rfl⟩

/-- C5 (amended): after a successful spawn, both drain threads are joined
before `execute` returns exactly when waiting for the process succeeds; on
the wait-error path `execute` returns at once with neither thread joined. -/
theorem c5_joined_iff_wait_returns {T : Type} (cmd : Cmd)
    (wr : Except IoError ExitStatus) (se : List String) (v : T) :
    ((∃ s, wr = Except.ok s) →
      (execute T cmd none wr se v).joinedStderr = true ∧
      (execute T cmd none wr se v).joinedStdout = true) ∧
    (∀ e, wr = Except.error e →
      (execute T cmd none wr se v).joinedStderr = false ∧
      (execute T cmd none wr se v).joinedStdout = false) := by
  constructor
  · rintro ⟨s, rfl⟩
    exact ⟨rfl, rfl⟩
  · rintro e rfl
    exact ⟨rfl, rfl⟩

/-- Witness for the amended C5: with a successful wait both joins run. -/
theorem c5_witness :
    (execute Nat ⟨"nix-build", []⟩ none (Except.ok ⟨0⟩) [] 0).joinedStderr = true ∧
    (execute Nat ⟨"nix-build", []⟩ none (Except.ok ⟨0⟩) [] 0).joinedStdout = true :=
  (c5_joined_iff_wait_returns ⟨"nix-build", []⟩ (Except.ok ⟨0⟩) [] 0).1 ⟨⟨0⟩, rfl⟩

/-- C6 counterexample: a deserialization failure on a successful exit and a
generic I/O failure (a failing wait) produce the very same `BuildError`
value — `value` maps the serde error through `BuildError::io`, the generic
I/O constructor — refuting the claim that the decode failure is distinct
from the generic I/O variant. -/
theorem c6_counterexample :
    value Nat (CallOpts.expression "e") [] none (Except.ok ⟨0⟩) []
        (Except.error "boom")
      = Except.error (BuildError.io "boom") ∧
    (execute Nat ⟨"nix-build", []⟩ none
        (Except.error ⟨IoErrorKind.other, "boom"⟩) [] 0).result
      = Except.error (BuildError.io "boom") :=
  ⟨rfl, rfl⟩

/-- C6 (amended): a deserialization failure on a successful exit is
surfaced through the generic I/O constructor `BuildError.io`; it is
distinct from the not-found and non-zero-exit variants but shares the
generic I/O variant. -/
theorem c6_decode_failure_is_io_variant {T : Type} (c : CallOpts)
    (iter : List (String × String)) (se : List String) (s : ExitStatus)
    (m : String) (hs : s.success = true) :
    value T c iter none (Except.ok s) se (Except.error m)
      = Except.error (BuildError.io m) ∧
    (∀ cm ms, BuildError.io m ≠ BuildError.spawn cm ms) ∧
    (∀ cm st l, BuildError.io m ≠ BuildError.exit cm st l) := by
  refine ⟨?_, fun cm ms => by simp, fun cm st l => by simp⟩
  simp [value, execute, hs]

/-- Witness for the amended C6 at a concrete decode failure. -/
theorem c6_witness :
    value Nat (CallOpts.expression "x") [] none (Except.ok ⟨0⟩) []
        (Except.error "invalid json")
      = Except.error (BuildError.io "invalid json") :=
  (c6_decode_failure_is_io_variant (CallOpts.expression "x") [] [] ⟨0⟩ "invalid json" rfl).1

/-- C7: a spawn failure of kind `NotFound` is returned as the distinct
evaluator-not-found variant (`BuildError.spawn`), any other spawn failure
as the generic I/O variant (`BuildError.io`), and the two variants are
distinct. -/
theorem c7_spawn_failure_dispatch {T : Type} (cmd : Cmd) (e : IoError)
    (wr : Except IoError ExitStatus) (se : List String) (v : T) :
    (e.kind = IoErrorKind.notFound →
      (execute T cmd (some e) wr se v).result
        = Except.error (BuildError.spawn cmd e.msg)) ∧
    (e.kind = IoErrorKind.other →
      (execute T cmd (some e) wr se v).result
        = Except.error (BuildError.io e.msg)) ∧
    (∀ m m', BuildError.spawn cmd m ≠ BuildError.io m') := by
  refine ⟨fun h => ?_, fun h => ?_, fun m m' => by simp⟩ <;> simp [execute, h]

/-- Witness for C7 on both spawn-failure kinds. -/
theorem c7_witness :
    (execute Nat ⟨"nix-instantiate", []⟩ (some ⟨IoErrorKind.notFound, "no such file"⟩)
        (Except.ok ⟨0⟩) [] 0).result
      = Except.error (BuildError.spawn ⟨"nix-instantiate", []⟩ "no such file") ∧
    (execute Nat ⟨"nix-instantiate", []⟩ (some ⟨IoErrorKind.other, "perm denied"⟩)
        (Except.ok ⟨0⟩) [] 0).result
      = Except.error (BuildError.io "perm denied") :=
  ⟨(c7_spawn_failure_dispatch ⟨"nix-instantiate", []⟩ ⟨IoErrorKind.notFound, "no such file"⟩
      (Except.ok ⟨0⟩) [] 0).1 rfl,
   (c7_spawn_failure_dispatch ⟨"nix-instantiate", []⟩ ⟨IoErrorKind.other, "perm denied"⟩
      (Except.ok ⟨0⟩) [] 0).2.1 rfl⟩

/-- C8 counterexample: the `argstrs` map is a Rust `HashMap`, whose
iteration order is unspecified; the reversed order is an admissible
iteration order (a permutation of the entries) for a map built by
inserting `a` then `b`, and under it the rendered `--argstr` triples do
not appear in insertion order — refuting the claim that the rendered
order always equals insertion order. -/
theorem c8_counterexample :
    ([("b", "2"), ("a", "1")] : List (String × String)).Perm
        (((CallOpts.expression "e").argstr "a" "1").argstr "b" "2").argstrs ∧
    command_arguments (((CallOpts.expression "e").argstr "a" "1").argstr "b" "2")
        [("b", "2"), ("a", "1")]
      ≠ command_arguments (((CallOpts.expression "e").argstr "a" "1").argstr "b" "2")
          (((CallOpts.expression "e").argstr "a" "1").argstr "b" "2").argstrs := by
  constructor
  · decide
  · decide

/-- C8 (amended): for every configuration and every admissible iteration
order, the rendered sequence contains exactly one `[--argstr, name, value]`
triple per inserted key, ordered by SOME permutation of the insertion
order — the map's unspecified iteration order — not necessarily by the
insertion order itself. -/
theorem c8_argstr_triples_some_permutation (c : CallOpts)
    (iter : List (String × String)) (h : iter.Perm c.argstrs) :
    ∃ entries : List (String × String), entries.Perm c.argstrs ∧
      command_arguments c iter = command_arguments_shape c entries :=
  ⟨iter, h, command_arguments_eq_shape c iter⟩

/-- Witness for the amended C8 at a two-key map rendered in reversed
iteration order. -/
theorem c8_witness :
    ∃ entries : List (String × String),
      entries.Perm (((CallOpts.expression "e").argstr "a" "1").argstr "b" "2").argstrs ∧
      command_arguments (((CallOpts.expression "e").argstr "a" "1").argstr "b" "2")
          [("b", "2"), ("a", "1")]
        = command_arguments_shape
            (((CallOpts.expression "e").argstr "a" "1").argstr "b" "2") entries :=
  c8_argstr_triples_some_permutation _ _ (by decide)

/-- C9: setting the attribute twice leaves only the last value, and
re-inserting an existing argument name overwrites its value without adding
a second entry — the resulting configurations (hence their rendered
arguments) are identical to ones where only the last write happened. -/
theorem c9_last_write_wins (c : CallOpts) (a₁ a₂ k v₁ v₂ : String) :
    (c.setAttr a₁).setAttr a₂ = c.setAttr a₂ ∧
    (c.argstr k v₁).argstr k v₂ = c.argstr k v₂ := by
  refine ⟨rfl, ?_⟩
  simp [CallOpts.argstr, mapInsert_mapInsert]

/-- C10: the branch of `path` returning "expected exactly one build output,
got zero" is unreachable — a successful `paths` yields a nonempty `Vec1`,
so the first pop always yields `Some`, and no failure `path` propagates
carries that message either. -/
theorem c10_zero_output_branch_unreachable (c : CallOpts)
    (iter : List (String × String)) (td : Except IoError TempDir)
    (sp : Option IoError) (wr : Except IoError ExitStatus) (se : List String)
    (lr : Except String (List StorePath)) :
    path c iter td sp wr se lr
      ≠ Except.error (BuildError.output "expected exactly one build output, got zero") := by
  intro h
  simp only [path] at h
  split at h
  · rename_i e hp
    simp only [Except.error.injEq] at h
    subst h
    have := paths_output_msg c iter td sp wr se lr _ hp
    simp at this
  · rename_i v g hp
    split at h
    · rename_i hpop
      obtain ⟨vh, vt⟩ := v
      simp [Vec1.toList, vecPop_cons] at hpop
    · simp at h
    · simp at h

end Lorri
